import Mathlib

/-!
Verification of the offer-scoring and dispatch logic of the yap-strategy
examples.  The repository contains three variants of a Golem market strategy:

* `market_strategy-simple-price-filter.py` (namespace `PriceFilter`):
  a standalone threshold filter; resolves counter indices with an explicit
  `for` loop over `enumerate(usage_vector)` and reads the start price from
  `pricing_coeffs[-1]`.
* `market_strategy-simple-price-filter-impr.py` (namespace `PriceFilterImpr`):
  resolves indices with `usage_vector.index(...)` guarded by `in`, reads the
  start price from `pricing_cooeffs[2]`, and initialises its score to
  `SCORE_NEUTRAL` before overwriting it.
* `market_strategy.py` (namespace `Delegating`): same loop resolver, reads
  prices only for logging, then returns `await super().score_offer(offer)`
  (the wrapped `LeastExpensiveLinearPayuMS`), modelled here as an arbitrary
  function `base : Offer → Score`.

Python floats are modelled as rationals (`ℚ`); the comparisons in the source
are pure order comparisons, so this is faithful for every NaN-free input.
A Python exception escaping `score_offer` (IndexError from a list subscript)
is modelled by `Option`: `none` means the call raises to its caller.
-/

/-- The scoring verdicts imported from `yapapi.strategy`.  The source uses
them as opaque constants, so they are modelled as an enumeration. -/
inductive Score where
  | SCORE_TRUSTED
  | SCORE_NEUTRAL
  | SCORE_REJECTED
deriving DecidableEq, Repr

/-- The three offer properties that `score_offer` reads:
`golem.node.id.name`, `golem.com.pricing.model.linear.coeffs` and
`golem.com.usage.vector`. -/
structure Offer where
  provider_name : String
  pricing_coeffs : List ℚ
  usage_vector : List String
deriving DecidableEq

/-- Python list subscription `xs[i]` for an `int` index: negative indices
count from the end; an out-of-range access raises IndexError (`none`). -/
def pyGet (xs : List ℚ) (i : Int) : Option ℚ :=
  let j : Int := if i < 0 then (xs.length : Int) + i else i
  if 0 ≤ j then xs.get? j.toNat else none

/-- The index-resolution loop shared by `market_strategy-simple-price-filter.py`
(lines 38–48) and `market_strategy.py` (lines 44–52):

    for idx, val in enumerate(usage_vector):
        if val == 'golem.usage.cpu_sec': price_cpu_idx = idx
        elif val == 'golem.usage.duration_sec': price_dur_idx = idx
        else: <warn>

The accumulator carries `(price_cpu_idx, price_dur_idx)`, both initialised
to `-1`; `idx` is the running position. -/
def loopResolveFrom : Nat → List String → Int × Int → Int × Int
  | _, [], acc => acc
  | idx, val :: rest, acc =>
    if val = "golem.usage.cpu_sec" then
      loopResolveFrom (idx + 1) rest ((idx : Int), acc.2)
    else if val = "golem.usage.duration_sec" then
      loopResolveFrom (idx + 1) rest (acc.1, (idx : Int))
    else
      loopResolveFrom (idx + 1) rest acc

/-- The loop resolver applied from position 0 with both indices at `-1`. -/
def loopResolve (usage_vector : List String) : Int × Int :=
  loopResolveFrom 0 usage_vector (-1, -1)

/-- First index of `x` starting the count at `n`; `-1` when absent. -/
def firstIndexFrom (x : String) : Nat → List String → Int
  | _, [] => -1
  | n, v :: rest => if v = x then (n : Int) else firstIndexFrom x (n + 1) rest

/-- Models `usage_vector.index(x) if x in usage_vector else -1`
(`market_strategy-simple-price-filter-impr.py` lines 47–48): Python's
`list.index` returns the first occurrence. -/
def pyIndexOr (x : String) (usage_vector : List String) : Int :=
  firstIndexFrom x 0 usage_vector

/-- The `(price_cpu_idx, price_env_idx)` pair computed by the impr variant. -/
def indexResolve (usage_vector : List String) : Int × Int :=
  (pyIndexOr "golem.usage.cpu_sec" usage_vector,
   pyIndexOr "golem.usage.duration_sec" usage_vector)

namespace PriceFilter

/-- The `max_prices` configuration of `market_strategy-simple-price-filter.py`
(constructor lines 22–25). -/
structure MaxPrices where
  max_cpu_price : ℚ
  max_dur_price : ℚ
  max_str_price : ℚ
deriving DecidableEq

/-- Model of `MyStrategy.score_offer` in `market_strategy-simple-price-filter.py`
(lines 28–71).  Resolves indices with the loop, rejects when either is `-1`,
reads `pricing_coeffs[price_cpu_idx]`, `pricing_coeffs[price_dur_idx]` and
`pricing_coeffs[-1]` (any IndexError raises: `none`), then compares all three
prices against the configured maxima with `<=`. -/
def score_offer (s : MaxPrices) (offer : Offer) : Option Score :=
  if (loopResolve offer.usage_vector).1 = -1 ∨ (loopResolve offer.usage_vector).2 = -1 then
    some Score.SCORE_REJECTED
  else
    match pyGet offer.pricing_coeffs (loopResolve offer.usage_vector).1,
          pyGet offer.pricing_coeffs (loopResolve offer.usage_vector).2,
          pyGet offer.pricing_coeffs (-1) with
    | some price_cpu, some price_dur, some price_start =>
        if price_cpu ≤ s.max_cpu_price ∧ price_dur ≤ s.max_dur_price ∧
            price_start ≤ s.max_str_price then
          some Score.SCORE_TRUSTED
        else
          some Score.SCORE_REJECTED
    | _, _, _ => none

/-- The price-extraction part of lines 54–57 in isolation (the spec's
"Linear Price Extractor"): `some (price_cpu, price_dur, price_start)` when
both counters resolved and all three subscripts are in range. -/
def extract_prices (offer : Offer) : Option (ℚ × ℚ × ℚ) :=
  if (loopResolve offer.usage_vector).1 = -1 ∨ (loopResolve offer.usage_vector).2 = -1 then
    none
  else
    match pyGet offer.pricing_coeffs (loopResolve offer.usage_vector).1,
          pyGet offer.pricing_coeffs (loopResolve offer.usage_vector).2,
          pyGet offer.pricing_coeffs (-1) with
    | some price_cpu, some price_dur, some price_start =>
        some (price_cpu, price_dur, price_start)
    | _, _, _ => none

/-- The warning-level messages the resolver loop emits, one
`self._logger.warning(f"Unused usage vector element: {val}")` per element
that is neither required counter (lines 40–48). -/
def counter_warnings : List String → List String
  | [] => []
  | val :: rest =>
    if val = "golem.usage.cpu_sec" then counter_warnings rest
    else if val = "golem.usage.duration_sec" then counter_warnings rest
    else ("Unused usage vector element: " ++ val) :: counter_warnings rest

end PriceFilter

namespace PriceFilterImpr

/-- The `max_prices` configuration of
`market_strategy-simple-price-filter-impr.py` (constructor lines 22–26). -/
structure MaxPrices where
  max_CPU_price : ℚ
  max_ENV_price : ℚ
  max_STR_price : ℚ
deriving DecidableEq

/-- Model of `MyStrategy.score_offer` in `market_strategy-simple-price-filter-impr.py`
(lines 28–75).  Indices come from `index()`/`in`; the start price is read
from `pricing_cooeffs[2]`; `score` is initialised to `SCORE_NEUTRAL` and then
overwritten on both branches of the threshold test. -/
def score_offer (s : MaxPrices) (offer : Offer) : Option Score :=
  if pyIndexOr "golem.usage.cpu_sec" offer.usage_vector = -1 ∨
      pyIndexOr "golem.usage.duration_sec" offer.usage_vector = -1 then
    some Score.SCORE_REJECTED
  else
    match pyGet offer.pricing_coeffs (pyIndexOr "golem.usage.cpu_sec" offer.usage_vector),
          pyGet offer.pricing_coeffs (pyIndexOr "golem.usage.duration_sec" offer.usage_vector),
          pyGet offer.pricing_coeffs 2 with
    | some price_CPU, some price_env, some price_start =>
        let score := Score.SCORE_NEUTRAL
        let score := if price_CPU ≤ s.max_CPU_price ∧ price_env ≤ s.max_ENV_price ∧
            price_start ≤ s.max_STR_price then
          Score.SCORE_TRUSTED
        else
          Score.SCORE_REJECTED
        some score
    | _, _, _ => none

/-- The impr variant's price extraction (lines 59–61): note the start price
is `pricing_cooeffs[2]`, a fixed index, not the last element. -/
def extract_prices (offer : Offer) : Option (ℚ × ℚ × ℚ) :=
  if pyIndexOr "golem.usage.cpu_sec" offer.usage_vector = -1 ∨
      pyIndexOr "golem.usage.duration_sec" offer.usage_vector = -1 then
    none
  else
    match pyGet offer.pricing_coeffs (pyIndexOr "golem.usage.cpu_sec" offer.usage_vector),
          pyGet offer.pricing_coeffs (pyIndexOr "golem.usage.duration_sec" offer.usage_vector),
          pyGet offer.pricing_coeffs 2 with
    | some price_CPU, some price_env, some price_start =>
        some (price_CPU, price_env, price_start)
    | _, _, _ => none

/-- Per-counter diagnostics of the impr variant: its per-element loop (with
the `print` for unused elements) is commented out in the source (lines
35–45); the live `index()`-based resolution (lines 47–48) emits no
per-counter diagnostic at all, so this list is always empty. -/
def counter_warnings (_ : List String) : List String := []

end PriceFilterImpr

namespace Delegating

/-- Model of `MyStrategy.score_offer` in `market_strategy.py` (lines 33–67).  Same
loop resolver and missing-counter rejection; the three prices are read only
for the log line (still raising IndexError when out of range), after which
the verdict of the wrapped `LeastExpensiveLinearPayuMS` base strategy —
modelled as the function `base` — is returned unchanged. -/
def score_offer (base : Offer → Score) (offer : Offer) : Option Score :=
  if (loopResolve offer.usage_vector).1 = -1 ∨ (loopResolve offer.usage_vector).2 = -1 then
    some Score.SCORE_REJECTED
  else
    match pyGet offer.pricing_coeffs (loopResolve offer.usage_vector).1,
          pyGet offer.pricing_coeffs (loopResolve offer.usage_vector).2,
          pyGet offer.pricing_coeffs (-1) with
    | some _price_cpu, some _price_env, some _price_start =>
        some (base offer)
    | _, _, _ => none

end Delegating

/-- Python `stderr.split()`: split on runs of whitespace, discarding empty
pieces.  `acc` holds the characters of the current token, reversed. -/
def splitWsAux : List Char → List Char → List String
  | [], [] => []
  | [], acc => [String.mk acc.reverse]
  | c :: cs, acc =>
    if c.isWhitespace then
      match acc with
      | [] => splitWsAux cs []
      | _ => String.mk acc.reverse :: splitWsAux cs []
    else splitWsAux cs (c :: acc)

/-- Python `s.split()` with no separator argument, as used on the worker's stderr. -/
def pySplit (s : String) : List String := splitWsAux s.toList []

/-- Value of a run of decimal digits; `none` if any character is not a
digit.  An empty run has value 0 (callers enforce non-emptiness where
Python does). -/
def decDigitsVal (cs : List Char) : Option Nat :=
  cs.foldl
    (fun acc c =>
      match acc with
      | none => none
      | some v => if c.isDigit then some (10 * v + (c.toNat - 48)) else none)
    (some 0)

/-- Unsigned decimal literal `digits [ . digits ]` with at least one digit,
as a rational. -/
def pyFloatAux (cs : List Char) : Option ℚ :=
  match cs.dropWhile (fun c => c != '.') with
  | [] =>
    if cs.isEmpty then none
    else
      match decDigitsVal cs with
      | some v => some (v : ℚ)
      | none => none
  | _ :: fp =>
    let ip := cs.takeWhile (fun c => c != '.')
    if ip.isEmpty && fp.isEmpty then none
    else
      match decDigitsVal ip, decDigitsVal fp with
      | some iv, some fv => some ((iv : ℚ) + (fv : ℚ) / (10 : ℚ) ^ fp.length)
      | _, _ => none

/-- Python `float(s)` restricted to plain decimal literals with an optional
sign — the format `/usr/bin/time -p` emits for its `real <seconds>` line.
A string that is not such a literal raises ValueError (`none`). -/
def pyFloat (s : String) : Option ℚ :=
  match s.toList with
  | '-' :: cs => (pyFloatAux cs).map (fun q => -q)
  | '+' :: cs => pyFloatAux cs
  | cs => pyFloatAux cs

/-- Model of `float(future_result.result().stderr.split()[1])` (worker lines 92–93):
the second whitespace-separated token of the stderr, parsed as a float.
`none` models the IndexError (fewer than two tokens) or ValueError
(non-numeric token) this expression raises. -/
def worker_parse_real_time (stderr : String) : Option ℚ :=
  match (pySplit stderr).get? 1 with
  | none => none
  | some real_time_str => pyFloat real_time_str

/-- Outcome of the per-task body of `worker` for one completed task. -/
inductive TaskOutcome where
  /-- parsing succeeded; `task.accept_result()` is reached with this
  elapsed time logged -/
  | accepted (real_time : ℚ)
  /-- an IndexError or ValueError from the timing parse escapes the
  `async for` loop: the worker generator dies with the exception and the
  task is never accepted -/
  | raised
deriving DecidableEq, Repr

/-- The body of `worker` (lines 86–103 of
`market_strategy-simple-price-filter.py`) for a single completed task,
keyed by the stderr the provider returned.  The source contains no
`try`/`except` around the timing parse: a parse failure propagates. -/
def worker_task_step (stderr : String) : TaskOutcome :=
  match worker_parse_real_time stderr with
  | some real_time => TaskOutcome.accepted real_time
  | none => TaskOutcome.raised

/-! ### Helper lemmas -/

/-- When `extract_prices` succeeds, `score_offer` of the standalone filter
returns exactly the threshold comparison of the extracted prices. -/
theorem filter_score_offer_of_extract (s : PriceFilter.MaxPrices) (offer : Offer)
    (a b c : ℚ) (h : PriceFilter.extract_prices offer = some (a, b, c)) :
    PriceFilter.score_offer s offer =
      some (if a ≤ s.max_cpu_price ∧ b ≤ s.max_dur_price ∧ c ≤ s.max_str_price
            then Score.SCORE_TRUSTED else Score.SCORE_REJECTED) := by
  unfold PriceFilter.extract_prices at h
  unfold PriceFilter.score_offer
  by_cases hc : (loopResolve offer.usage_vector).1 = -1 ∨ (loopResolve offer.usage_vector).2 = -1
  · rw [if_pos hc] at h
    exact absurd h (by simp)
  · rw [if_neg hc] at h
    rw [if_neg hc]
    split at h
    next =>
      simp only [Option.some.injEq, Prod.mk.injEq] at h
      obtain ⟨ha, hb, hcz⟩ := h
      subst ha; subst hb; subst hcz
      rw [apply_ite some]
    next => simp at h

/-- When the impr variant's extraction succeeds, its `score_offer` returns
exactly the threshold comparison of its extracted prices (the initial
`SCORE_NEUTRAL` is always overwritten). -/
theorem impr_score_offer_of_extract (s : PriceFilterImpr.MaxPrices) (offer : Offer)
    (a b c : ℚ) (h : PriceFilterImpr.extract_prices offer = some (a, b, c)) :
    PriceFilterImpr.score_offer s offer =
      some (if a ≤ s.max_CPU_price ∧ b ≤ s.max_ENV_price ∧ c ≤ s.max_STR_price
            then Score.SCORE_TRUSTED else Score.SCORE_REJECTED) := by
  unfold PriceFilterImpr.extract_prices at h
  unfold PriceFilterImpr.score_offer
  by_cases hc : pyIndexOr "golem.usage.cpu_sec" offer.usage_vector = -1 ∨
      pyIndexOr "golem.usage.duration_sec" offer.usage_vector = -1
  · rw [if_pos hc] at h
    exact absurd h (by simp)
  · rw [if_neg hc] at h
    rw [if_neg hc]
    split at h
    next =>
      simp only [Option.some.injEq, Prod.mk.injEq] at h
      obtain ⟨ha, hb, hcz⟩ := h
      subst ha; subst hb; subst hcz
      rw [apply_ite some]
    next => simp at h

/-- When the filter-style extraction succeeds, the delegating variant
returns the wrapped base strategy's verdict unchanged. -/
theorem delegating_score_offer_of_extract (base : Offer → Score) (offer : Offer)
    (a b c : ℚ) (h : PriceFilter.extract_prices offer = some (a, b, c)) :
    Delegating.score_offer base offer = some (base offer) := by
  unfold PriceFilter.extract_prices at h
  unfold Delegating.score_offer
  by_cases hc : (loopResolve offer.usage_vector).1 = -1 ∨ (loopResolve offer.usage_vector).2 = -1
  · rw [if_pos hc] at h
    exact absurd h (by simp)
  · rw [if_neg hc] at h
    rw [if_neg hc]
    split at h
    next => rfl
    next => simp at h

/-- If the CPU counter is absent, the loop never assigns `price_cpu_idx`. -/
theorem loopResolveFrom_fst_of_not_mem :
    ∀ (uv : List String) (n : Nat) (c d : Int),
      "golem.usage.cpu_sec" ∉ uv → (loopResolveFrom n uv (c, d)).1 = c
  | [], _, _, _, _ => rfl
  | v :: rest, n, c, d, h => by
    simp only [List.mem_cons, not_or] at h
    unfold loopResolveFrom
    rw [if_neg (fun hv => h.1 hv.symm)]
    by_cases hdur : v = "golem.usage.duration_sec"
    · rw [if_pos hdur]
      exact loopResolveFrom_fst_of_not_mem rest (n + 1) c (n : Int) h.2
    · rw [if_neg hdur]
      exact loopResolveFrom_fst_of_not_mem rest (n + 1) c d h.2

/-- If the duration counter is absent, the loop never assigns
`price_dur_idx`. -/
theorem loopResolveFrom_snd_of_not_mem :
    ∀ (uv : List String) (n : Nat) (c d : Int),
      "golem.usage.duration_sec" ∉ uv → (loopResolveFrom n uv (c, d)).2 = d
  | [], _, _, _, _ => rfl
  | v :: rest, n, c, d, h => by
    simp only [List.mem_cons, not_or] at h
    unfold loopResolveFrom
    by_cases hcpu : v = "golem.usage.cpu_sec"
    · rw [if_pos hcpu]
      exact loopResolveFrom_snd_of_not_mem rest (n + 1) (n : Int) d h.2
    · rw [if_neg hcpu, if_neg (fun hv => h.1 hv.symm)]
      exact loopResolveFrom_snd_of_not_mem rest (n + 1) c d h.2

/-- Applying `firstIndexFrom` to an absent element gives `-1`. -/
theorem firstIndexFrom_of_not_mem :
    ∀ (uv : List String) (x : String) (n : Nat), x ∉ uv → firstIndexFrom x n uv = -1
  | [], _, _, _ => rfl
  | v :: rest, x, n, h => by
    simp only [List.mem_cons, not_or] at h
    unfold firstIndexFrom
    rw [if_neg (fun hv => h.1 hv.symm)]
    exact firstIndexFrom_of_not_mem rest x (n + 1) h.2

/-- With each required counter occurring at most once, the loop resolver
computes, for each present counter, its (unique) first index. -/
theorem loopResolveFrom_eq_firstIndex :
    ∀ (uv : List String) (n : Nat) (c d : Int),
      uv.count "golem.usage.cpu_sec" ≤ 1 → uv.count "golem.usage.duration_sec" ≤ 1 →
      loopResolveFrom n uv (c, d) =
        ((if "golem.usage.cpu_sec" ∈ uv then firstIndexFrom "golem.usage.cpu_sec" n uv else c),
         (if "golem.usage.duration_sec" ∈ uv then firstIndexFrom "golem.usage.duration_sec" n uv
          else d))
  | [], _, _, _, _, _ => by simp [loopResolveFrom]
  | v :: rest, n, c, d, hc, hd => by
    by_cases hv1 : v = "golem.usage.cpu_sec"
    · subst hv1
      rw [List.count_cons_self] at hc
      rw [List.count_cons_of_ne (by decide)] at hd
      have hnm : "golem.usage.cpu_sec" ∉ rest := List.count_eq_zero.mp (by omega)
      have ih := loopResolveFrom_eq_firstIndex rest (n + 1) ((n : Int)) d (by omega) hd
      simp [loopResolveFrom, ih, hnm, firstIndexFrom]
    · by_cases hv2 : v = "golem.usage.duration_sec"
      · subst hv2
        rw [List.count_cons_self] at hd
        rw [List.count_cons_of_ne (by decide)] at hc
        have hnm : "golem.usage.duration_sec" ∉ rest := List.count_eq_zero.mp (by omega)
        have ih := loopResolveFrom_eq_firstIndex rest (n + 1) c ((n : Int)) hc (by omega)
        simp [loopResolveFrom, ih, hnm, firstIndexFrom, hv1]
      · rw [List.count_cons_of_ne (fun h => hv1 h.symm)] at hc
        rw [List.count_cons_of_ne (fun h => hv2 h.symm)] at hd
        have ih := loopResolveFrom_eq_firstIndex rest (n + 1) c d hc hd
        simp [loopResolveFrom, ih, firstIndexFrom, hv1, hv2, Ne.symm hv1, Ne.symm hv2]

/-- The filter variant's resolver loop warns about every element of the
usage vector that is neither required counter. -/
theorem counter_warnings_mem :
    ∀ (uv : List String) (v : String), v ∈ uv → v ≠ "golem.usage.cpu_sec" →
      v ≠ "golem.usage.duration_sec" →
      ("Unused usage vector element: " ++ v) ∈ PriceFilter.counter_warnings uv
  | [], v, hv, _, _ => absurd hv (List.not_mem_nil v)
  | w :: rest, v, hv, h1, h2 => by
    unfold PriceFilter.counter_warnings
    by_cases hw1 : w = "golem.usage.cpu_sec"
    · rw [if_pos hw1]
      rcases List.mem_cons.mp hv with h | h
      · exact absurd (h.symm ▸ hw1) h1
      · exact counter_warnings_mem rest v h h1 h2
    · rw [if_neg hw1]
      by_cases hw2 : w = "golem.usage.duration_sec"
      · rw [if_pos hw2]
        rcases List.mem_cons.mp hv with h | h
        · exact absurd (h.symm ▸ hw2) h2
        · exact counter_warnings_mem rest v h h1 h2
      · rw [if_neg hw2]
        rcases List.mem_cons.mp hv with h | h
        · exact h ▸ List.mem_cons_self _ _
        · exact List.mem_cons_of_mem _ (counter_warnings_mem rest v h h1 h2)

/-! ### Claim theorems -/

/-- Claim C1: for every offer in which both required counters
(`golem.usage.cpu_sec` and `golem.usage.duration_sec`) are present in the
usage vector and the extracted cpu unit price, duration unit price and
fixed/start price are each within their configured thresholds, the
standalone filter variants return `SCORE_TRUSTED` and the delegating
variant returns the wrapped base strategy's verdict; the threshold
pre-filter itself never yields `SCORE_REJECTED` on such an offer. -/
theorem score_offer_accepts_within_thresholds
    (s1 : PriceFilter.MaxPrices) (s2 : PriceFilterImpr.MaxPrices) (base : Offer → Score)
    (o1 o2 : Offer) (a b c a' b' c' : ℚ)
    (h1 : PriceFilter.extract_prices o1 = some (a, b, c))
    (ha : a ≤ s1.max_cpu_price) (hb : b ≤ s1.max_dur_price) (hc : c ≤ s1.max_str_price)
    (h2 : PriceFilterImpr.extract_prices o2 = some (a', b', c'))
    (ha' : a' ≤ s2.max_CPU_price) (hb' : b' ≤ s2.max_ENV_price) (hc' : c' ≤ s2.max_STR_price) :
    PriceFilter.score_offer s1 o1 = some Score.SCORE_TRUSTED ∧
    PriceFilterImpr.score_offer s2 o2 = some Score.SCORE_TRUSTED ∧
    Delegating.score_offer base o1 = some (base o1) ∧
    PriceFilter.score_offer s1 o1 ≠ some Score.SCORE_REJECTED ∧
    PriceFilterImpr.score_offer s2 o2 ≠ some Score.SCORE_REJECTED := by
  have e1 := filter_score_offer_of_extract s1 o1 a b c h1
  have e2 := impr_score_offer_of_extract s2 o2 a' b' c' h2
  rw [if_pos ⟨ha, hb, hc⟩] at e1
  rw [if_pos ⟨ha', hb', hc'⟩] at e2
  exact ⟨e1, e2, delegating_score_offer_of_extract base o1 a b c h1,
    by rw [e1]; simp, by rw [e2]; simp⟩

theorem score_offer_accepts_within_thresholds_witness :
    PriceFilter.score_offer ⟨10, 10, 0⟩
        ⟨"provider-1", [5, 8, 0], ["golem.usage.cpu_sec", "golem.usage.duration_sec"]⟩ =
      some Score.SCORE_TRUSTED ∧
    PriceFilterImpr.score_offer ⟨10, 10, 0⟩
        ⟨"provider-1", [5, 8, 0], ["golem.usage.cpu_sec", "golem.usage.duration_sec"]⟩ =
      some Score.SCORE_TRUSTED ∧
    Delegating.score_offer (fun _ => Score.SCORE_NEUTRAL)
        ⟨"provider-1", [5, 8, 0], ["golem.usage.cpu_sec", "golem.usage.duration_sec"]⟩ =
      some ((fun _ => Score.SCORE_NEUTRAL)
        (⟨"provider-1", [5, 8, 0], ["golem.usage.cpu_sec", "golem.usage.duration_sec"]⟩ : Offer)) ∧
    PriceFilter.score_offer ⟨10, 10, 0⟩
        ⟨"provider-1", [5, 8, 0], ["golem.usage.cpu_sec", "golem.usage.duration_sec"]⟩ ≠
      some Score.SCORE_REJECTED ∧
    PriceFilterImpr.score_offer ⟨10, 10, 0⟩
        ⟨"provider-1", [5, 8, 0], ["golem.usage.cpu_sec", "golem.usage.duration_sec"]⟩ ≠
      some Score.SCORE_REJECTED :=
  score_offer_accepts_within_thresholds ⟨10, 10, 0⟩ ⟨10, 10, 0⟩ (fun _ => Score.SCORE_NEUTRAL)
    _ _ 5 8 0 5 8 0 (by decide) (by decide) (by decide) (by decide)
    (by decide) (by decide) (by decide) (by decide)

/-- Claim C2: for every offer missing at least one required counter in the
usage vector, all three `score_offer` variants return `SCORE_REJECTED`,
regardless of the pricing coefficients. -/
theorem score_offer_rejects_missing_counter
    (s1 : PriceFilter.MaxPrices) (s2 : PriceFilterImpr.MaxPrices) (base : Offer → Score)
    (offer : Offer)
    (h : "golem.usage.cpu_sec" ∉ offer.usage_vector ∨
         "golem.usage.duration_sec" ∉ offer.usage_vector) :
    PriceFilter.score_offer s1 offer = some Score.SCORE_REJECTED ∧
    PriceFilterImpr.score_offer s2 offer = some Score.SCORE_REJECTED ∧
    Delegating.score_offer base offer = some Score.SCORE_REJECTED := by
  have hloop : (loopResolve offer.usage_vector).1 = -1 ∨
      (loopResolve offer.usage_vector).2 = -1 := by
    cases h with
    | inl h => exact Or.inl (loopResolveFrom_fst_of_not_mem _ 0 (-1) (-1) h)
    | inr h => exact Or.inr (loopResolveFrom_snd_of_not_mem _ 0 (-1) (-1) h)
  have hidx : pyIndexOr "golem.usage.cpu_sec" offer.usage_vector = -1 ∨
      pyIndexOr "golem.usage.duration_sec" offer.usage_vector = -1 := by
    cases h with
    | inl h => exact Or.inl (firstIndexFrom_of_not_mem _ _ 0 h)
    | inr h => exact Or.inr (firstIndexFrom_of_not_mem _ _ 0 h)
  refine ⟨?_, ?_, ?_⟩
  · unfold PriceFilter.score_offer
    rw [if_pos hloop]
  · unfold PriceFilterImpr.score_offer
    rw [if_pos hidx]
  · unfold Delegating.score_offer
    rw [if_pos hloop]

theorem score_offer_rejects_missing_counter_witness :
    PriceFilter.score_offer ⟨10, 10, 0⟩ ⟨"p", [1, 2], ["golem.usage.cpu_sec"]⟩ =
      some Score.SCORE_REJECTED ∧
    PriceFilterImpr.score_offer ⟨10, 10, 0⟩ ⟨"p", [1, 2], ["golem.usage.cpu_sec"]⟩ =
      some Score.SCORE_REJECTED ∧
    Delegating.score_offer (fun _ => Score.SCORE_TRUSTED)
        ⟨"p", [1, 2], ["golem.usage.cpu_sec"]⟩ = some Score.SCORE_REJECTED :=
  score_offer_rejects_missing_counter ⟨10, 10, 0⟩ ⟨10, 10, 0⟩ (fun _ => Score.SCORE_TRUSTED)
    ⟨"p", [1, 2], ["golem.usage.cpu_sec"]⟩ (Or.inr (by decide))

/-- Claim C3, counterexample: `score_offer` does NOT return `SCORE_REJECTED`
on every offer whose coefficient count differs from usage-vector length + 1.
With both counters present but only one coefficient, the subscript
`pricing_coeffs[price_dur_idx]` is out of range: the filter variant raises
IndexError (`none`) instead of returning `SCORE_REJECTED`; likewise the impr
variant on two coefficients (its `pricing_cooeffs[2]`). -/
theorem score_offer_short_coeffs_raises :
    ([(0 : ℚ)] : List ℚ).length ≠
      (["golem.usage.cpu_sec", "golem.usage.duration_sec"] : List String).length + 1 ∧
    PriceFilter.score_offer ⟨10, 10, 0⟩
        ⟨"p", [0], ["golem.usage.cpu_sec", "golem.usage.duration_sec"]⟩ = none ∧
    PriceFilter.score_offer ⟨10, 10, 0⟩
        ⟨"p", [0], ["golem.usage.cpu_sec", "golem.usage.duration_sec"]⟩ ≠
      some Score.SCORE_REJECTED ∧
    PriceFilterImpr.score_offer ⟨10, 10, 0⟩
        ⟨"p", [0, 0], ["golem.usage.cpu_sec", "golem.usage.duration_sec"]⟩ = none ∧
    PriceFilterImpr.score_offer ⟨10, 10, 0⟩
        ⟨"p", [0, 0], ["golem.usage.cpu_sec", "golem.usage.duration_sec"]⟩ ≠
      some Score.SCORE_REJECTED := by decide

/-- Claim C3 (amended): `score_offer` performs no length validation.  When
both counters resolve but a coefficient subscript is out of range the call
raises IndexError (modelled `none`) rather than returning `SCORE_REJECTED`;
and an offer with MORE coefficients than usage-vector length + 1 is scored
normally and can even be `SCORE_TRUSTED`. -/
theorem score_offer_no_length_check :
    (∀ (s : PriceFilter.MaxPrices) (offer : Offer),
      ¬((loopResolve offer.usage_vector).1 = -1 ∨ (loopResolve offer.usage_vector).2 = -1) →
      PriceFilter.extract_prices offer = none →
      PriceFilter.score_offer s offer = none) ∧
    PriceFilter.score_offer ⟨10, 10, 10⟩
        ⟨"p", [0, 0, 0, 0, 0], ["golem.usage.cpu_sec", "golem.usage.duration_sec"]⟩ =
      some Score.SCORE_TRUSTED ∧
    ([(0 : ℚ), 0, 0, 0, 0] : List ℚ).length ≠
      (["golem.usage.cpu_sec", "golem.usage.duration_sec"] : List String).length + 1 := by
  refine ⟨?_, by decide, by decide⟩
  intro s offer hcond h
  unfold PriceFilter.extract_prices at h
  unfold PriceFilter.score_offer
  rw [if_neg hcond] at h
  rw [if_neg hcond]
  split at h
  next => simp at h
  next => rfl

theorem score_offer_no_length_check_witness :
    PriceFilter.score_offer ⟨10, 10, 0⟩
        ⟨"q", [0], ["golem.usage.cpu_sec", "golem.usage.duration_sec"]⟩ = none :=
  score_offer_no_length_check.1 ⟨10, 10, 0⟩
    ⟨"q", [0], ["golem.usage.cpu_sec", "golem.usage.duration_sec"]⟩
    (by decide) (by decide)

/-- Claim C4: the filter variant reads the fixed/start price from the LAST
coefficient (`pricing_coeffs[-1]`), but the impr variant reads it from the
fixed index 2 (`pricing_cooeffs[2]`).  On a usage vector of length 5 with 6
coefficients `[1,2,3,4,5,6]`, the claim (and the spec's adopted contract)
expects coefficient index 5, i.e. `6`; the impr variant extracts `3`. -/
theorem impr_start_price_reads_index_two :
    PriceFilterImpr.extract_prices
        ⟨"p", [1, 2, 3, 4, 5, 6],
         ["golem.usage.cpu_sec", "golem.usage.duration_sec", "golem.usage.storage_gib",
          "golem.usage.gib", "golem.usage.network_gib"]⟩ = some (1, 2, 3) ∧
    ([(1 : ℚ), 2, 3, 4, 5, 6] : List ℚ).getLast? = some 6 ∧
    (3 : ℚ) ≠ 6 ∧
    PriceFilter.extract_prices
        ⟨"p", [1, 2, 3, 4, 5, 6],
         ["golem.usage.cpu_sec", "golem.usage.duration_sec", "golem.usage.storage_gib",
          "golem.usage.gib", "golem.usage.network_gib"]⟩ = some (1, 2, 6) := by decide

/-- Claim C5: the threshold comparison is inclusive.  With both counters
resolved and prices extracted, each standalone variant returns
`SCORE_TRUSTED` exactly when every extracted price is `≤` its threshold
(so a price exactly equal to its cap passes) and `SCORE_REJECTED` exactly
when some extracted price strictly exceeds its threshold. -/
theorem score_offer_threshold_boundary
    (s1 : PriceFilter.MaxPrices) (s2 : PriceFilterImpr.MaxPrices)
    (o1 o2 : Offer) (a b c a' b' c' : ℚ)
    (h1 : PriceFilter.extract_prices o1 = some (a, b, c))
    (h2 : PriceFilterImpr.extract_prices o2 = some (a', b', c')) :
    (PriceFilter.score_offer s1 o1 = some Score.SCORE_TRUSTED ↔
      a ≤ s1.max_cpu_price ∧ b ≤ s1.max_dur_price ∧ c ≤ s1.max_str_price) ∧
    (PriceFilter.score_offer s1 o1 = some Score.SCORE_REJECTED ↔
      (s1.max_cpu_price < a ∨ s1.max_dur_price < b ∨ s1.max_str_price < c)) ∧
    (PriceFilterImpr.score_offer s2 o2 = some Score.SCORE_TRUSTED ↔
      a' ≤ s2.max_CPU_price ∧ b' ≤ s2.max_ENV_price ∧ c' ≤ s2.max_STR_price) ∧
    (PriceFilterImpr.score_offer s2 o2 = some Score.SCORE_REJECTED ↔
      (s2.max_CPU_price < a' ∨ s2.max_ENV_price < b' ∨ s2.max_STR_price < c')) := by
  have e1 := filter_score_offer_of_extract s1 o1 a b c h1
  have e2 := impr_score_offer_of_extract s2 o2 a' b' c' h2
  have part1 :
      (PriceFilter.score_offer s1 o1 = some Score.SCORE_TRUSTED ↔
        a ≤ s1.max_cpu_price ∧ b ≤ s1.max_dur_price ∧ c ≤ s1.max_str_price) ∧
      (PriceFilter.score_offer s1 o1 = some Score.SCORE_REJECTED ↔
        (s1.max_cpu_price < a ∨ s1.max_dur_price < b ∨ s1.max_str_price < c)) := by
    by_cases hq : a ≤ s1.max_cpu_price ∧ b ≤ s1.max_dur_price ∧ c ≤ s1.max_str_price
    · rw [if_pos hq] at e1
      have hnot : ¬(s1.max_cpu_price < a ∨ s1.max_dur_price < b ∨ s1.max_str_price < c) := by
        push_neg
        exact hq
      simp [e1, hq, hnot]
    · rw [if_neg hq] at e1
      have hlt : s1.max_cpu_price < a ∨ s1.max_dur_price < b ∨ s1.max_str_price < c := by
        rcases not_and_or.mp hq with h | h
        · exact Or.inl (not_le.mp h)
        · rcases not_and_or.mp h with h' | h'
          · exact Or.inr (Or.inl (not_le.mp h'))
          · exact Or.inr (Or.inr (not_le.mp h'))
      simp [e1, hq, hlt]
  have part2 :
      (PriceFilterImpr.score_offer s2 o2 = some Score.SCORE_TRUSTED ↔
        a' ≤ s2.max_CPU_price ∧ b' ≤ s2.max_ENV_price ∧ c' ≤ s2.max_STR_price) ∧
      (PriceFilterImpr.score_offer s2 o2 = some Score.SCORE_REJECTED ↔
        (s2.max_CPU_price < a' ∨ s2.max_ENV_price < b' ∨ s2.max_STR_price < c')) := by
    by_cases hq : a' ≤ s2.max_CPU_price ∧ b' ≤ s2.max_ENV_price ∧ c' ≤ s2.max_STR_price
    · rw [if_pos hq] at e2
      have hnot : ¬(s2.max_CPU_price < a' ∨ s2.max_ENV_price < b' ∨ s2.max_STR_price < c') := by
        push_neg
        exact hq
      simp [e2, hq, hnot]
    · rw [if_neg hq] at e2
      have hlt : s2.max_CPU_price < a' ∨ s2.max_ENV_price < b' ∨ s2.max_STR_price < c' := by
        rcases not_and_or.mp hq with h | h
        · exact Or.inl (not_le.mp h)
        · rcases not_and_or.mp h with h' | h'
          · exact Or.inr (Or.inl (not_le.mp h'))
          · exact Or.inr (Or.inr (not_le.mp h'))
      simp [e2, hq, hlt]
  exact ⟨part1.1, part1.2, part2.1, part2.2⟩

theorem score_offer_threshold_boundary_witness :
    ((PriceFilter.score_offer ⟨5, 8, 0⟩
          ⟨"p", [5, 8, 0], ["golem.usage.cpu_sec", "golem.usage.duration_sec"]⟩ =
        some Score.SCORE_TRUSTED ↔ (5 : ℚ) ≤ 5 ∧ (8 : ℚ) ≤ 8 ∧ (0 : ℚ) ≤ 0) ∧
      (PriceFilter.score_offer ⟨5, 8, 0⟩
          ⟨"p", [5, 8, 0], ["golem.usage.cpu_sec", "golem.usage.duration_sec"]⟩ =
        some Score.SCORE_REJECTED ↔ ((5 : ℚ) < 5 ∨ (8 : ℚ) < 8 ∨ (0 : ℚ) < 0)) ∧
      (PriceFilterImpr.score_offer ⟨5, 8, 0⟩
          ⟨"p", [6, 8, 0], ["golem.usage.cpu_sec", "golem.usage.duration_sec"]⟩ =
        some Score.SCORE_TRUSTED ↔ (6 : ℚ) ≤ 5 ∧ (8 : ℚ) ≤ 8 ∧ (0 : ℚ) ≤ 0) ∧
      (PriceFilterImpr.score_offer ⟨5, 8, 0⟩
          ⟨"p", [6, 8, 0], ["golem.usage.cpu_sec", "golem.usage.duration_sec"]⟩ =
        some Score.SCORE_REJECTED ↔ ((5 : ℚ) < 6 ∨ (8 : ℚ) < 8 ∨ (0 : ℚ) < 0))) :=
  score_offer_threshold_boundary ⟨5, 8, 0⟩ ⟨5, 8, 0⟩
    ⟨"p", [5, 8, 0], ["golem.usage.cpu_sec", "golem.usage.duration_sec"]⟩
    ⟨"p", [6, 8, 0], ["golem.usage.cpu_sec", "golem.usage.duration_sec"]⟩
    5 8 0 6 8 0 (by decide) (by decide)

/-- Claim C6, counterexample: when the stderr lacks the expected timing line
(here: empty, or a single token, or a non-numeric second token), the worker
body does NOT report the task as failed and continue — the IndexError or
ValueError propagates out of the `async for` loop (`TaskOutcome.raised`):
the worker generator crashes.  The source contains no handler for this. -/
theorem worker_crashes_on_timing_parse :
    worker_task_step "" = TaskOutcome.raised ∧
    worker_task_step "real" = TaskOutcome.raised ∧
    worker_task_step "real abc" = TaskOutcome.raised := by decide

/-- Claim C6 (amended): on any stderr whose timing parse fails (fewer than
two whitespace-separated tokens, or a non-numeric second token), the worker
raises the exception out of its task loop — the task is not accepted and no
local handling reports it failed; containment is left to the external
engine. -/
theorem worker_raises_on_timing_parse_failure (stderr : String)
    (h : worker_parse_real_time stderr = none) :
    worker_task_step stderr = TaskOutcome.raised := by
  unfold worker_task_step
  rw [h]

theorem worker_raises_on_timing_parse_failure_witness :
    worker_task_step "some unrelated output" = TaskOutcome.raised :=
  worker_raises_on_timing_parse_failure "some unrelated output" (by decide)

/-- Claim C7, counterexample: the impr variant's live code resolves indices
with `in`/`index()` and emits NO per-counter diagnostic (its warning loop is
commented out), so for a usage vector containing the unrecognized counter
`golem.usage.storage_gib` it emits no warning at all — refuting the claim
that every variant warns about each unrecognized counter. -/
theorem impr_emits_no_unused_counter_warning :
    PriceFilterImpr.counter_warnings
        ["golem.usage.cpu_sec", "golem.usage.duration_sec", "golem.usage.storage_gib"] = [] ∧
    "golem.usage.storage_gib" ∈
      (["golem.usage.cpu_sec", "golem.usage.duration_sec", "golem.usage.storage_gib"] :
        List String) ∧
    "golem.usage.storage_gib" ≠ "golem.usage.cpu_sec" ∧
    "golem.usage.storage_gib" ≠ "golem.usage.duration_sec" := by decide

/-- Claim C7 (amended): the loop-based filter variant emits a warning-level
`Unused usage vector element` diagnostic for every unrecognized counter,
while the impr variant emits none; and in no variant does the presence of
unrecognized counters by itself cause `SCORE_REJECTED`: with both required
counters resolved, each standalone variant's verdict is exactly the
threshold comparison of its extracted prices, and the delegating variant
returns exactly the wrapped base strategy's verdict. -/
theorem unused_counter_warning_behaviour (uv : List String) (v : String)
    (s1 : PriceFilter.MaxPrices) (s2 : PriceFilterImpr.MaxPrices) (base : Offer → Score)
    (o1 o2 : Offer) (a b c a' b' c' : ℚ)
    (hv : v ∈ uv) (hv1 : v ≠ "golem.usage.cpu_sec") (hv2 : v ≠ "golem.usage.duration_sec")
    (hx1 : PriceFilter.extract_prices o1 = some (a, b, c))
    (hx2 : PriceFilterImpr.extract_prices o2 = some (a', b', c')) :
    ("Unused usage vector element: " ++ v) ∈ PriceFilter.counter_warnings uv ∧
    PriceFilterImpr.counter_warnings uv = [] ∧
    PriceFilter.score_offer s1 o1 =
      some (if a ≤ s1.max_cpu_price ∧ b ≤ s1.max_dur_price ∧ c ≤ s1.max_str_price
            then Score.SCORE_TRUSTED else Score.SCORE_REJECTED) ∧
    PriceFilterImpr.score_offer s2 o2 =
      some (if a' ≤ s2.max_CPU_price ∧ b' ≤ s2.max_ENV_price ∧ c' ≤ s2.max_STR_price
            then Score.SCORE_TRUSTED else Score.SCORE_REJECTED) ∧
    Delegating.score_offer base o1 = some (base o1) :=
  ⟨counter_warnings_mem uv v hv hv1 hv2, rfl,
   filter_score_offer_of_extract s1 o1 a b c hx1,
   impr_score_offer_of_extract s2 o2 a' b' c' hx2,
   delegating_score_offer_of_extract base o1 a b c hx1⟩

theorem unused_counter_warning_behaviour_witness :
    ("Unused usage vector element: " ++ "golem.usage.storage_gib") ∈
      PriceFilter.counter_warnings
        ["golem.usage.cpu_sec", "golem.usage.duration_sec", "golem.usage.storage_gib"] ∧
    PriceFilterImpr.counter_warnings
        ["golem.usage.cpu_sec", "golem.usage.duration_sec", "golem.usage.storage_gib"] = [] ∧
    PriceFilter.score_offer ⟨10, 10, 0⟩
        ⟨"p", [5, 8, 9, 0],
         ["golem.usage.cpu_sec", "golem.usage.duration_sec", "golem.usage.storage_gib"]⟩ =
      some (if (5 : ℚ) ≤ 10 ∧ (8 : ℚ) ≤ 10 ∧ (0 : ℚ) ≤ 0
            then Score.SCORE_TRUSTED else Score.SCORE_REJECTED) ∧
    PriceFilterImpr.score_offer ⟨10, 10, 10⟩
        ⟨"p", [5, 8, 9, 0],
         ["golem.usage.cpu_sec", "golem.usage.duration_sec", "golem.usage.storage_gib"]⟩ =
      some (if (5 : ℚ) ≤ 10 ∧ (8 : ℚ) ≤ 10 ∧ (9 : ℚ) ≤ 10
            then Score.SCORE_TRUSTED else Score.SCORE_REJECTED) ∧
    Delegating.score_offer (fun _ => Score.SCORE_NEUTRAL)
        ⟨"p", [5, 8, 9, 0],
         ["golem.usage.cpu_sec", "golem.usage.duration_sec", "golem.usage.storage_gib"]⟩ =
      some ((fun _ => Score.SCORE_NEUTRAL)
        (⟨"p", [5, 8, 9, 0],
          ["golem.usage.cpu_sec", "golem.usage.duration_sec", "golem.usage.storage_gib"]⟩ :
          Offer)) :=
  unused_counter_warning_behaviour
    ["golem.usage.cpu_sec", "golem.usage.duration_sec", "golem.usage.storage_gib"]
    "golem.usage.storage_gib" ⟨10, 10, 0⟩ ⟨10, 10, 10⟩ (fun _ => Score.SCORE_NEUTRAL)
    ⟨"p", [5, 8, 9, 0],
     ["golem.usage.cpu_sec", "golem.usage.duration_sec", "golem.usage.storage_gib"]⟩
    ⟨"p", [5, 8, 9, 0],
     ["golem.usage.cpu_sec", "golem.usage.duration_sec", "golem.usage.storage_gib"]⟩
    5 8 0 5 8 9 (by decide) (by decide) (by decide) (by decide) (by decide)

/-- Claim C8: for every completed task whose stderr has at least two
whitespace-separated tokens and whose second token is a decimal number, the
captured wall-clock elapsed time is exactly the parsed value of that second
token, and the task is accepted with it. -/
theorem worker_elapsed_is_second_token (stderr : String) (t : String) (v : ℚ)
    (h1 : (pySplit stderr).get? 1 = some t) (h2 : pyFloat t = some v) :
    worker_task_step stderr = TaskOutcome.accepted v := by
  unfold worker_task_step worker_parse_real_time
  rw [h1]
  dsimp only
  rw [h2]

theorem worker_elapsed_is_second_token_witness :
    worker_task_step "real 1\nuser 0\nsys 0" = TaskOutcome.accepted 1 :=
  worker_elapsed_is_second_token "real 1\nuser 0\nsys 0" "1" 1 (by decide) (by decide)

/-- Claim C9, counterexample: the loop-based resolver and the
`index()`-based resolver do NOT always agree.  When `golem.usage.cpu_sec`
occurs twice, the loop keeps the last occurrence (index 1) while `index()`
returns the first (index 0). -/
theorem resolvers_disagree_on_duplicates :
    loopResolve ["golem.usage.cpu_sec", "golem.usage.cpu_sec", "golem.usage.duration_sec"] =
      (1, 2) ∧
    indexResolve ["golem.usage.cpu_sec", "golem.usage.cpu_sec", "golem.usage.duration_sec"] =
      (0, 2) ∧
    loopResolve ["golem.usage.cpu_sec", "golem.usage.cpu_sec", "golem.usage.duration_sec"] ≠
      indexResolve ["golem.usage.cpu_sec", "golem.usage.cpu_sec", "golem.usage.duration_sec"] := by
  decide

/-- Claim C9 (amended): on every usage vector in which each required
counter occurs at most once, the loop-based resolver of the filter variant
and the `index()`-based resolver of the impr variant compute the same
`(cpu index, duration index)` pair; with duplicated counters they can
differ (loop keeps the last occurrence, `index()` the first). -/
theorem resolvers_agree_without_duplicates (uv : List String)
    (hc : uv.count "golem.usage.cpu_sec" ≤ 1)
    (hd : uv.count "golem.usage.duration_sec" ≤ 1) :
    loopResolve uv = indexResolve uv := by
  unfold loopResolve indexResolve pyIndexOr
  rw [loopResolveFrom_eq_firstIndex uv 0 (-1) (-1) hc hd]
  by_cases h1 : "golem.usage.cpu_sec" ∈ uv
  · by_cases h2 : "golem.usage.duration_sec" ∈ uv
    · simp [h1, h2]
    · simp [h1, h2, firstIndexFrom_of_not_mem uv _ 0 h2]
  · by_cases h2 : "golem.usage.duration_sec" ∈ uv
    · simp [h1, h2, firstIndexFrom_of_not_mem uv _ 0 h1]
    · simp [h1, h2, firstIndexFrom_of_not_mem uv _ 0 h1,
        firstIndexFrom_of_not_mem uv _ 0 h2]

theorem resolvers_agree_without_duplicates_witness :
    loopResolve ["golem.usage.cpu_sec", "golem.usage.duration_sec", "golem.usage.storage_gib"] =
      indexResolve
        ["golem.usage.cpu_sec", "golem.usage.duration_sec", "golem.usage.storage_gib"] :=
  resolvers_agree_without_duplicates
    ["golem.usage.cpu_sec", "golem.usage.duration_sec", "golem.usage.storage_gib"]
    (by decide) (by decide)

/-- Claim C10: whenever a standalone filter variant's `score_offer` returns
normally, the verdict is `SCORE_TRUSTED` or `SCORE_REJECTED` — never
`SCORE_NEUTRAL`, even though the impr variant initialises its score to
`SCORE_NEUTRAL` (both branches of its threshold test overwrite it). -/
theorem score_offer_never_neutral
    (s1 : PriceFilter.MaxPrices) (s2 : PriceFilterImpr.MaxPrices) (o1 o2 : Offer)
    (v1 v2 : Score)
    (h1 : PriceFilter.score_offer s1 o1 = some v1)
    (h2 : PriceFilterImpr.score_offer s2 o2 = some v2) :
    (v1 = Score.SCORE_TRUSTED ∨ v1 = Score.SCORE_REJECTED) ∧ v1 ≠ Score.SCORE_NEUTRAL ∧
    (v2 = Score.SCORE_TRUSTED ∨ v2 = Score.SCORE_REJECTED) ∧ v2 ≠ Score.SCORE_NEUTRAL := by
  have g1 : v1 = Score.SCORE_TRUSTED ∨ v1 = Score.SCORE_REJECTED := by
    unfold PriceFilter.score_offer at h1
    split at h1
    · right
      exact (Option.some.inj h1).symm
    · split at h1
      · split at h1 <;> simp_all
      · simp at h1
  have g2 : v2 = Score.SCORE_TRUSTED ∨ v2 = Score.SCORE_REJECTED := by
    unfold PriceFilterImpr.score_offer at h2
    split at h2
    · right
      exact (Option.some.inj h2).symm
    · split at h2
      · dsimp only at h2
        split at h2 <;> simp_all
      · simp at h2
  refine ⟨g1, ?_, g2, ?_⟩
  · rcases g1 with h | h <;> subst h <;> simp
  · rcases g2 with h | h <;> subst h <;> simp

theorem score_offer_never_neutral_witness :
    (Score.SCORE_TRUSTED = Score.SCORE_TRUSTED ∨
      Score.SCORE_TRUSTED = Score.SCORE_REJECTED) ∧
    Score.SCORE_TRUSTED ≠ Score.SCORE_NEUTRAL ∧
    (Score.SCORE_REJECTED = Score.SCORE_TRUSTED ∨
      Score.SCORE_REJECTED = Score.SCORE_REJECTED) ∧
    Score.SCORE_REJECTED ≠ Score.SCORE_NEUTRAL :=
  score_offer_never_neutral ⟨10, 10, 0⟩ ⟨10, 10, 0⟩
    ⟨"p", [5, 8, 0], ["golem.usage.cpu_sec", "golem.usage.duration_sec"]⟩
    ⟨"p", [11, 8, 0], ["golem.usage.cpu_sec", "golem.usage.duration_sec"]⟩
    Score.SCORE_TRUSTED Score.SCORE_REJECTED (by decide) (by decide)
